import Mathlib

/-!
Verification of the `tiny_tensor` Rust crate: the `Tensor` data model
(`src/tensor.rs`), its constructors (`Tensor::new`, `zeros`, the `tensor!`
literal builder in `src/creation.rs`), the `TensorError` type
(`src/error.rs`), and the `Display` pretty-printer.

Modelling conventions:

* `usize` values are `Nat`; the platform word width is taken to be 64 bits
  (`usizeBound = 2 ^ 64`).
* Arithmetic on `usize` is modelled with overflow checks, the profile the
  crate itself documents (`zeros`' doc comment: "Panics if the total number
  of elements overflows `usize`"): a multiplication whose true result is
  `≥ 2 ^ 64` panics.  Panics (including out-of-bounds indexing and the
  `usize` underflow of `shape.len() - 1` on an empty shape) are modelled by
  `none`; functions that can panic return `Option`.
* For the default release profile, where overflow checks are disabled and
  `usize` arithmetic wraps modulo `2 ^ 64`, separate `..._release`
  definitions of the same source functions are given; they are used to
  examine the overflow behaviour of `zeros`.
* Fallible code (`Result<T, TensorError>`) is `Except TensorError T`.
-/

set_option autoImplicit false

namespace TinyTensor

/-- `usize::MAX + 1` on a 64-bit platform. -/
def usizeBound : Nat := 2 ^ 64

/-- Checked `usize` multiplication: `a * b`, panicking (`none`) on overflow. -/
def cmul (a b : Nat) : Option Nat :=
  if a * b < usizeBound then some (a * b) else none

/-- Wrapping `usize` multiplication (release profile, overflow checks off). -/
def wmul (a b : Nat) : Nat :=
  a * b % usizeBound

/-- Left fold of checked multiplication over a list, starting from `acc`.
Models the running accumulator of `shape.iter().product()`. -/
def prodAcc (acc : Nat) : List Nat → Option Nat
  | [] => some acc
  | d :: rest =>
    match cmul acc d with
    | none => none
    | some x => prodAcc x rest

/-- `shape.iter().product()` for `usize` with overflow checks: panics
(`none`) as soon as an intermediate product reaches `2 ^ 64`. -/
def uprodChecked (shape : List Nat) : Option Nat :=
  prodAcc 1 shape

/-- `shape.iter().product()` in the release profile: wraps modulo `2 ^ 64`. -/
def uprodWrap (shape : List Nat) : Nat :=
  shape.foldl wmul 1

/-- The `Tensor<T>` struct of `src/tensor.rs`: a flat data buffer, a shape,
and row-major strides. -/
structure Tensor (T : Type) where
  data : List T
  shape : List Nat
  strides : List Nat

/-- The `TensorError` enum of `src/error.rs`. -/
inductive TensorError where
  | ShapeError : String → TensorError

/-- `Tensor::calculate_strides` (src/tensor.rs:53-60) with overflow checks.

The source allocates `vec![1; shape.len()]` and then runs
`for i in (0..shape.len() - 1).rev() { strides[i] = strides[i + 1] * shape[i + 1]; }`.
For the empty shape, `shape.len() - 1` underflows `usize`: with overflow
checks this panics outright, and with wrapping it produces the range
`0..usize::MAX` whose first iteration indexes `strides[usize::MAX]` out of
bounds — a panic either way, hence `none` for `[]`.  For a non-empty shape
the last stride is `1` and each earlier stride is the (checked) product of
the next stride with the next dimension. -/
def calculate_strides : List Nat → Option (List Nat)
  | [] => none
  | [_] => some [1]
  | _ :: d :: rest =>
    match calculate_strides (d :: rest) with
    | some (h :: s) =>
      match cmul h d with
      | none => none
      | some v => some (v :: h :: s)
    | _ => none

/-- `Tensor::new` (src/tensor.rs:33-50): computes the shape product (which
can panic on overflow), returns `ShapeError` when `data.len()` differs from
it, and otherwise computes strides (which can panic) and wraps the data,
shape, and strides without copying or reordering. -/
def Tensor.new {T : Type} (data : List T) (shape : List Nat) :
    Option (Except TensorError (Tensor T)) :=
  match uprodChecked shape with
  | none => none
  | some num_elements =>
    if data.length ≠ num_elements then
      some (.error (.ShapeError
        ("Data size (" ++ toString data.length ++
          ") does not match shape product (" ++ toString num_elements ++ ")")))
    else
      match calculate_strides shape with
      | none => none
      | some strides => some (.ok ⟨data, shape, strides⟩)

/-- `zeros` (src/creation.rs:8-13): `z` stands for `T::default()`.  Computes
the element count (panic on overflow), builds a default-filled buffer, and
unwraps `Tensor::new`; an `Err` from `new` would make `unwrap` panic, and a
panic inside `new` propagates — both are `none`. -/
def zeros {T : Type} (z : T) (shape : List Nat) : Option (Tensor T) :=
  match uprodChecked shape with
  | none => none
  | some num_elements =>
    match Tensor.new (List.replicate num_elements z) shape with
    | some (.ok t) => some t
    | _ => none

/-- The runtime code of the 2D arm of the `tensor!` macro
(src/creation.rs:63-83).  The macro's grammar guarantees at least one row
(`rows = []` would make `rows[0]` panic, hence `none`); a ragged input hits
the explicit `panic!`, and the flat data is the rows concatenated in order. -/
def tensor2D {T : Type} (rows : List (List T)) : Option (Tensor T) :=
  match rows with
  | [] => none
  | r0 :: _ =>
    let d1 := rows.length
    let d2 := r0.length
    if rows.all (fun r => r.length == d2) then
      match Tensor.new rows.flatten [d1, d2] with
      | some (.ok t) => some t
      | _ => none
    else
      none

/-- The runtime code of the 3D arm of the `tensor!` macro
(src/creation.rs:33-62).  `layers[0]` and `layers[0][0]` panic when absent;
any block whose row count differs from `d2`, or any row whose length
differs from `d3`, hits the explicit `panic!`. -/
def tensor3D {T : Type} (layers : List (List (List T))) : Option (Tensor T) :=
  match layers with
  | [] => none
  | l0 :: _ =>
    match l0 with
    | [] => none
    | r0 :: _ =>
      let d1 := layers.length
      let d2 := l0.length
      let d3 := r0.length
      if layers.all (fun m => m.length == d2 && m.all (fun r => r.length == d3)) then
        match Tensor.new layers.flatten.flatten [d1, d2, d3] with
        | some (.ok t) => some t
        | _ => none
      else
        none

/-- The mathematical row-major stride derivation the spec describes:
`strides[i]` is the product of the dimensions after position `i`, and the
empty shape has empty strides.  `calculate_strides` agrees with it whenever
it returns at all (proved below). -/
def stridesMath : List Nat → List Nat
  | [] => []
  | _ :: rest => rest.prod :: stridesMath rest

/-- `Tensor::calculate_strides` in the release profile: multiplication
wraps modulo `2 ^ 64`; the empty shape still panics (out-of-bounds index). -/
def calculate_strides_release : List Nat → Option (List Nat)
  | [] => none
  | [_] => some [1]
  | _ :: d :: rest =>
    match calculate_strides_release (d :: rest) with
    | some (h :: s) => some (wmul h d :: h :: s)
    | _ => none

/-- `Tensor::new` in the release profile: the shape product wraps modulo
`2 ^ 64` instead of panicking. -/
def Tensor.new_release {T : Type} (data : List T) (shape : List Nat) :
    Option (Except TensorError (Tensor T)) :=
  let num_elements := uprodWrap shape
  if data.length ≠ num_elements then
    some (.error (.ShapeError
      ("Data size (" ++ toString data.length ++
        ") does not match shape product (" ++ toString num_elements ++ ")")))
  else
    match calculate_strides_release shape with
    | none => none
    | some strides => some (.ok ⟨data, shape, strides⟩)

/-- `zeros` in the release profile: the element count wraps modulo `2 ^ 64`. -/
def zeros_release {T : Type} (z : T) (shape : List Nat) : Option (Tensor T) :=
  let num_elements := uprodWrap shape
  match Tensor.new_release (List.replicate num_elements z) shape with
  | some (.ok t) => some t
  | _ => none

/-- Sequences a list of optional strings: `none` as soon as one entry is
`none` (a panic inside the formatting loop aborts the whole rendering). -/
def sequenceO {α : Type} : List (Option α) → Option (List α)
  | [] => some []
  | o :: rest =>
    match o with
    | none => none
    | some a => (sequenceO rest).map (a :: ·)

/-- `format_recursive` (src/tensor.rs:64-95).  `rep` stands for the `Debug`
rendering of an element (`write!(f, "\x7b:?\x7d", x)`).  The scalar branch
reads `data[0]` (panic when `data` is empty); each loop iteration writes
the indent, reads `strides[0]` (panic when `strides` is empty), then either
recurses on the sub-slice `&data[offset..]` or reads `data[offset]` (panic
when out of bounds), and appends `",\n"` except after the last row.  The
rendering is the concatenation of the pieces between `"[\n"` and the
closing indent and bracket. -/
def format_recursive {T : Type} (rep : T → String) (data : List T)
    (shape strides : List Nat) (level : Nat) : Option String :=
  match shape with
  | [] => (data.head?).map rep
  | d :: rest =>
    let indent := (List.replicate (level * 2) ' ').asString
    let piece : Nat → Option String := fun i =>
      (strides.head?).bind fun s0 =>
        let offset := i * s0
        let body : Option String :=
          if rest.isEmpty then (data.get? offset).map rep
          else format_recursive rep (data.drop offset) rest (strides.drop 1) (level + 1)
        body.map fun b =>
          indent ++ "  " ++ b ++ (if i < d - 1 then ",\n" else "\n")
    (sequenceO ((List.range d).map piece)).map fun pieces =>
      "[\n" ++ String.join pieces ++ indent ++ "]"

/-- The `Display` impl for `Tensor` (src/tensor.rs:97-109): an empty shape
or any zero dimension short-circuits to `"[]\n"` without touching the data;
otherwise the output is `format_recursive` at level 0. -/
def displayTensor {T : Type} (rep : T → String) (t : Tensor T) : Option String :=
  if t.shape = [] then some "[]\n"
  else if t.shape.contains 0 then some "[]\n"
  else format_recursive rep t.data t.shape t.strides 0

/-- `needle` occurs at the start of `hay`. -/
def startsWithL {α : Type} [BEq α] : List α → List α → Bool
  | [], _ => true
  | _ :: _, [] => false
  | a :: as, b :: bs => a == b && startsWithL as bs

/-- `needle` occurs somewhere inside `hay` as a contiguous run. -/
def occursIn {α : Type} [BEq α] (needle : List α) : List α → Bool
  | [] => needle.isEmpty
  | hay@(_ :: t) => startsWithL needle hay || occursIn needle t

/-- The construction invariants of a live `Tensor`: the data length is the
shape product, the strides have the same length as the shape, and the
strides are exactly the row-major derivation from the shape. -/
def TensorInv {T : Type} (t : Tensor T) : Prop :=
  t.data.length = t.shape.prod ∧
  t.strides.length = t.shape.length ∧
  t.strides = stridesMath t.shape

lemma cmul_some {a b n : Nat} (h : cmul a b = some n) : n = a * b := by
  unfold cmul at h
  split at h
  · exact (Option.some_inj.mp h).symm
  · exact absurd h (by simp)

lemma prodAcc_some : ∀ {s : List Nat} {acc n : Nat},
    prodAcc acc s = some n → n = acc * s.prod := by
  intro s
  induction s with
  | nil =>
    intro acc n h
    simp [prodAcc] at h
    simp [h]
  | cons d rest ih =>
    intro acc n h
    unfold prodAcc at h
    cases hc : cmul acc d with
    | none => rw [hc] at h; exact absurd h (by simp)
    | some x =>
      rw [hc] at h
      have hx : x = acc * d := cmul_some hc
      have := ih h
      subst hx
      rw [this, List.prod_cons]
      ring

lemma uprodChecked_some {shape : List Nat} {n : Nat}
    (h : uprodChecked shape = some n) : n = shape.prod :=
  by simpa using prodAcc_some h

lemma calculate_strides_some : ∀ {shape s : List Nat},
    calculate_strides shape = some s → s = stridesMath shape := by
  intro shape
  induction shape with
  | nil => intro s h; exact absurd h (by simp [calculate_strides])
  | cons a rest ih =>
    intro s h
    cases rest with
    | nil =>
      simp [calculate_strides] at h
      simp [← h, stridesMath]
    | cons d rest' =>
      unfold calculate_strides at h
      cases hr : calculate_strides (d :: rest') with
      | none => rw [hr] at h; exact absurd h (by simp)
      | some s' =>
        rw [hr] at h
        have hs' : s' = stridesMath (d :: rest') := ih hr
        cases s' with
        | nil => simp [stridesMath] at hs'
        | cons h0 tl =>
          dsimp only at h
          cases hc : cmul h0 d with
          | none => rw [hc] at h; exact absurd h (by simp)
          | some v =>
            rw [hc] at h
            dsimp only at h
            have hv : v = h0 * d := cmul_some hc
            have hpair : h0 :: tl = rest'.prod :: stridesMath rest' := by
              rw [hs']; rfl
            injection hpair with hh0 htl
            rw [← Option.some_inj.mp h, hv, hh0, htl]
            show rest'.prod * d :: rest'.prod :: stridesMath rest' =
              stridesMath (a :: d :: rest')
            simp [stridesMath, List.prod_cons, Nat.mul_comm]

lemma stridesMath_length : ∀ shape : List Nat,
    (stridesMath shape).length = shape.length := by
  intro shape
  induction shape with
  | nil => rfl
  | cons a rest ih => simp [stridesMath, ih]

lemma stridesMath_getLast : ∀ {shape : List Nat}, shape ≠ [] →
    (stridesMath shape).getLast? = some 1 := by
  intro shape
  induction shape with
  | nil => intro h; exact absurd rfl h
  | cons a rest ih =>
    intro _
    cases rest with
    | nil => simp [stridesMath]
    | cons d rest' =>
      have := ih (by simp)
      rw [stridesMath]
      rw [show stridesMath (d :: rest') = rest'.prod :: stridesMath rest' from rfl] at this ⊢
      rwa [List.getLast?_cons_cons]

lemma stridesMath_rec : ∀ (shape : List Nat) (i : Nat), i + 1 < shape.length →
    (stridesMath shape).getD i 0 =
      (stridesMath shape).getD (i + 1) 0 * shape.getD (i + 1) 0 := by
  intro shape
  induction shape with
  | nil => intro i h; simp at h
  | cons a rest ih =>
    intro i h
    cases i with
    | zero =>
      cases rest with
      | nil => simp at h
      | cons d rest' =>
        simp [stridesMath, List.prod_cons]
        ring
    | succ j =>
      have hj : j + 1 < rest.length := by
        simpa [Nat.succ_lt_succ_iff] using h
      simpa [stridesMath, List.getD_cons_succ] using ih j hj

lemma new_ok_inv {T : Type} {data : List T} {shape : List Nat} {t : Tensor T}
    (h : Tensor.new data shape = some (.ok t)) : TensorInv t := by
  unfold Tensor.new at h
  cases hu : uprodChecked shape with
  | none => rw [hu] at h; exact absurd h (by simp)
  | some num =>
    rw [hu] at h
    dsimp only at h
    split at h
    · exact absurd h (by simp)
    · rename_i hne
      cases hs : calculate_strides shape with
      | none => rw [hs] at h; exact absurd h (by simp)
      | some s =>
        rw [hs] at h
        dsimp only at h
        have ht : Tensor.mk data shape s = t := by
          simpa using h
        subst ht
        refine ⟨?_, ?_, ?_⟩
        · have hlen : data.length = num := by
            by_contra hc
            exact hne hc
          rw [hlen, uprodChecked_some hu]
        · rw [calculate_strides_some hs, stridesMath_length]
        · exact calculate_strides_some hs

lemma sequenceO_isSome {α : Type} : ∀ {l : List (Option α)},
    (∀ o ∈ l, o.isSome) → (sequenceO l).isSome := by
  intro l
  induction l with
  | nil => intro _; simp [sequenceO]
  | cons o rest ih =>
    intro h
    have ho := h o (by simp)
    cases o with
    | none => simp at ho
    | some a =>
      have := ih (fun x hx => h x (by simp [hx]))
      simpa [sequenceO] using this

lemma flatten_length_uniform {T : Type} {c : Nat} : ∀ {rows : List (List T)},
    (∀ r ∈ rows, r.length = c) → rows.flatten.length = rows.length * c := by
  intro rows
  induction rows with
  | nil => intro _; simp
  | cons r rest ih =>
    intro h
    have hr : r.length = c := h r (by simp)
    have := ih (fun x hx => h x (by simp [hx]))
    simp [List.flatten, hr, this, Nat.succ_mul, Nat.add_comm]

/-- C1 counterexample: the claim quantifies over every `(data, shape)` with
`data.len() == product(shape)` and asserts `Tensor::new` succeeds with the
row-major strides.  It fails at `data = [42], shape = []` (the stride
computation panics on the `usize` underflow of `shape.len() - 1`), and at
`data = [], shape = [0, 2^32, 2^32]` (the product is `0 = data.len()`, but
the stride `2^32 * 2^32` overflows `usize` and the construction panics
instead of succeeding). -/
theorem new_claim_fails_on_empty_and_overflow_shapes :
    Tensor.new (T := Nat) [42] [] = none ∧
    Tensor.new (T := Nat) [] [0, 2 ^ 32, 2 ^ 32] = none :=
  ⟨rfl, rfl⟩

/-- C1 (amended): whenever the element-count computation does not overflow
(`uprodChecked shape = some num`), `data.len() = num`, and the stride
computation succeeds (`calculate_strides shape = some s`, which forces the
shape to be non-empty and every stride product to fit in `usize`),
`Tensor::new` returns `Ok` of a tensor wrapping exactly the given data and
shape, with `strides[last] = 1` and
`strides[i] = strides[i+1] * shape[i+1]` for every valid `i`. -/
theorem new_success_data_shape_strides {T : Type} (data : List T)
    (shape : List Nat) (num : Nat) (s : List Nat)
    (hnum : uprodChecked shape = some num)
    (hlen : data.length = num)
    (hs : calculate_strides shape = some s) :
    Tensor.new data shape = some (.ok ⟨data, shape, s⟩) ∧
    s.getLast? = some 1 ∧
    ∀ i : Nat, i + 1 < shape.length →
      s.getD i 0 = s.getD (i + 1) 0 * shape.getD (i + 1) 0 := by
  have hsm : s = stridesMath shape := calculate_strides_some hs
  have hne : shape ≠ [] := by
    intro hcon
    subst hcon
    simp [calculate_strides] at hs
  refine ⟨?_, ?_, ?_⟩
  · unfold Tensor.new
    rw [hnum]
    dsimp only
    rw [if_neg (by simp [hlen]), hs]
  · rw [hsm]
    exact stridesMath_getLast hne
  · intro i hi
    rw [hsm]
    exact stridesMath_rec shape i hi

/-- Witness for C1 at `data = [1,2,3,4,5,6]`, `shape = [2,3]`. -/
theorem new_success_data_shape_strides_witness :
    Tensor.new (T := Nat) [1, 2, 3, 4, 5, 6] [2, 3] =
      some (.ok ⟨[1, 2, 3, 4, 5, 6], [2, 3], [3, 1]⟩) ∧
    ([3, 1] : List Nat).getLast? = some 1 ∧
    ∀ i : Nat, i + 1 < ([2, 3] : List Nat).length →
      ([3, 1] : List Nat).getD i 0 =
        ([3, 1] : List Nat).getD (i + 1) 0 * ([2, 3] : List Nat).getD (i + 1) 0 :=
  new_success_data_shape_strides [1, 2, 3, 4, 5, 6] [2, 3] 6 [3, 1] rfl rfl rfl

/-- C2 counterexample: at `data = [], shape = [2^32, 2^32]` the data length
(0) differs from the shape product (`2^64`), so the claim demands a
returned `ShapeError`; instead the element-count computation overflows
`usize` and `Tensor::new` panics (under the release profile it wraps and
even succeeds) — no error value is ever returned. -/
theorem new_overflow_panics_instead_of_shape_error :
    Tensor.new (T := Nat) [] [2 ^ 32, 2 ^ 32] = none := rfl

/-- C2 (amended): whenever the element-count computation does not overflow
(`uprodChecked shape = some num`), `Tensor::new` returns a `ShapeError`
exactly when `data.len() ≠ num`, its message contains both the actual data
length and the expected product, and in that case the result is the error,
not a tensor. -/
theorem new_shape_error_iff_length_mismatch {T : Type} (data : List T)
    (shape : List Nat) (num : Nat) (hnum : uprodChecked shape = some num) :
    (∃ msg, Tensor.new data shape = some (.error (.ShapeError msg)) ∧
        (∃ a b, msg = a ++ toString data.length ++ b) ∧
        (∃ a b, msg = a ++ toString num ++ b)) ↔
      data.length ≠ num := by
  constructor
  · rintro ⟨msg, hmsg, -, -⟩
    intro heq
    unfold Tensor.new at hmsg
    rw [hnum] at hmsg
    dsimp only at hmsg
    rw [if_neg (by simp [heq])] at hmsg
    cases hs : calculate_strides shape with
    | none => rw [hs] at hmsg; exact absurd hmsg (by simp)
    | some s => rw [hs] at hmsg; exact absurd hmsg (by simp)
  · intro hne
    refine ⟨"Data size (" ++ toString data.length ++
      ") does not match shape product (" ++ toString num ++ ")", ?_, ?_, ?_⟩
    · unfold Tensor.new
      rw [hnum]
      dsimp only
      rw [if_pos hne]
    · exact ⟨"Data size (",
        ") does not match shape product (" ++ toString num ++ ")",
        by simp [String.append_assoc]⟩
    · exact ⟨"Data size (" ++ toString data.length ++
        ") does not match shape product (", ")",
        by simp [String.append_assoc]⟩

/-- Witness for C2 at `data = [1,2,3]`, `shape = [2,3]` (length 3 ≠ 6). -/
theorem new_shape_error_iff_length_mismatch_witness :
    ∃ msg, Tensor.new (T := Nat) [1, 2, 3] [2, 3] =
        some (.error (.ShapeError msg)) ∧
      (∃ a b, msg = a ++ toString ([1, 2, 3] : List Nat).length ++ b) ∧
      (∃ a b, msg = a ++ toString 6 ++ b) :=
  (new_shape_error_iff_length_mismatch [1, 2, 3] [2, 3] 6 rfl).mpr (by decide)

/-- C3: the code bug.  The claim (and the crate's own `Display` impl, which
special-cases the empty shape) expects `calculate_strides` on a
zero-dimensional shape to return an empty sequence and `Tensor::new` on one
datum with the empty shape to succeed; instead `shape.len() - 1` underflows
`usize` and both panic. -/
theorem new_scalar_empty_shape_panics :
    calculate_strides [] = none ∧ Tensor.new (T := Nat) [7] [] = none :=
  ⟨rfl, rfl⟩

/-- C4: every tensor any public constructor actually produces satisfies the
three invariants: `data.len() = product(shape)`,
`strides.len() = shape.len()`, and `strides` is exactly the row-major
derivation of the shape (`TensorInv`); nothing mutates a tensor after
construction, so they hold for every live tensor. -/
theorem constructed_tensors_satisfy_invariants :
    (∀ (T : Type) (data : List T) (shape : List Nat) (t : Tensor T),
        Tensor.new data shape = some (.ok t) → TensorInv t) ∧
    (∀ (T : Type) (z : T) (shape : List Nat) (t : Tensor T),
        zeros z shape = some t → TensorInv t) ∧
    (∀ (T : Type) (rows : List (List T)) (t : Tensor T),
        tensor2D rows = some t → TensorInv t) ∧
    (∀ (T : Type) (layers : List (List (List T))) (t : Tensor T),
        tensor3D layers = some t → TensorInv t) := by
  have hzero : ∀ (T : Type) (z : T) (shape : List Nat) (t : Tensor T),
      zeros z shape = some t → TensorInv t := by
    intro T z shape t h
    unfold zeros at h
    cases hu : uprodChecked shape with
    | none => rw [hu] at h; exact absurd h (by simp)
    | some num =>
      rw [hu] at h
      dsimp only at h
      cases hn : Tensor.new (List.replicate num z) shape with
      | none => rw [hn] at h; exact absurd h (by simp)
      | some e =>
        cases e with
        | error err => rw [hn] at h; exact absurd h (by simp)
        | ok t' =>
          rw [hn] at h
          dsimp only at h
          rw [← Option.some_inj.mp h]
          exact new_ok_inv hn
  have h2d : ∀ (T : Type) (rows : List (List T)) (t : Tensor T),
      tensor2D rows = some t → TensorInv t := by
    intro T rows t h
    unfold tensor2D at h
    cases rows with
    | nil => exact absurd h (by simp)
    | cons r0 rest =>
      dsimp only at h
      split at h
      · cases hn : Tensor.new (r0 :: rest).flatten
            [(r0 :: rest).length, r0.length] with
        | none => rw [hn] at h; exact absurd h (by simp)
        | some e =>
          cases e with
          | error err => rw [hn] at h; exact absurd h (by simp)
          | ok t' =>
            rw [hn] at h
            dsimp only at h
            rw [← Option.some_inj.mp h]
            exact new_ok_inv hn
      · exact absurd h (by simp)
  have h3d : ∀ (T : Type) (layers : List (List (List T))) (t : Tensor T),
      tensor3D layers = some t → TensorInv t := by
    intro T layers t h
    unfold tensor3D at h
    cases layers with
    | nil => exact absurd h (by simp)
    | cons l0 rest =>
      cases l0 with
      | nil => exact absurd h (by simp)
      | cons r0 rrest =>
        dsimp only at h
        split at h
        · cases hn : Tensor.new ((r0 :: rrest) :: rest).flatten.flatten
              [((r0 :: rrest) :: rest).length, (r0 :: rrest).length,
                r0.length] with
          | none => rw [hn] at h; exact absurd h (by simp)
          | some e =>
            cases e with
            | error err => rw [hn] at h; exact absurd h (by simp)
            | ok t' =>
              rw [hn] at h
              dsimp only at h
              rw [← Option.some_inj.mp h]
              exact new_ok_inv hn
        · exact absurd h (by simp)
  exact ⟨fun T data shape t h => new_ok_inv h, hzero, h2d, h3d⟩

/-- Witness for C4: the tensor built by `Tensor::new [1,2,3,4] [2,2]`
satisfies the invariants. -/
theorem constructed_tensors_satisfy_invariants_witness :
    TensorInv (⟨[1, 2, 3, 4], [2, 2], [2, 1]⟩ : Tensor Nat) :=
  constructed_tensors_satisfy_invariants.1 Nat [1, 2, 3, 4] [2, 2]
    ⟨[1, 2, 3, 4], [2, 2], [2, 1]⟩ rfl

/-- C5 counterexample: the claim asserts `zeros` returns a zero-filled
tensor for every shape whose element count does not overflow.  For the
empty shape (count 1) the stride computation panics on the `usize`
underflow of `shape.len() - 1`, and for `[0, 2^32, 2^32]` (count 0) the
stride product `2^32 * 2^32` overflows — in both cases `zeros` panics and
returns nothing. -/
theorem zeros_panics_on_scalar_and_zero_dim_overflow :
    zeros (0 : Nat) [] = none ∧ zeros (0 : Nat) [0, 2 ^ 32, 2 ^ 32] = none :=
  ⟨rfl, rfl⟩

/-- C5 (amended): for every non-empty shape whose element-count and stride
computations do not overflow, `zeros` returns a tensor with exactly the
given shape, whose data length is the shape product and whose every
element is the default value `z`; the internal `Tensor::new` call succeeds,
so no `ShapeError` is observable. -/
theorem zeros_returns_default_filled_tensor {T : Type} (z : T)
    (shape : List Nat) (num : Nat) (s : List Nat)
    (hnum : uprodChecked shape = some num)
    (hs : calculate_strides shape = some s) :
    zeros z shape = some ⟨List.replicate num z, shape, s⟩ ∧
    Tensor.new (List.replicate num z) shape =
      some (.ok ⟨List.replicate num z, shape, s⟩) ∧
    (List.replicate num z).length = shape.prod ∧
    ∀ x ∈ List.replicate num z, x = z := by
  have hnew : Tensor.new (List.replicate num z) shape =
      some (.ok ⟨List.replicate num z, shape, s⟩) := by
    unfold Tensor.new
    rw [hnum]
    dsimp only
    rw [if_neg (by simp), hs]
  refine ⟨?_, hnew, ?_, ?_⟩
  · unfold zeros
    rw [hnum]
    dsimp only
    rw [hnew]
  · simp [uprodChecked_some hnum]
  · intro x hx
    exact List.eq_of_mem_replicate hx

/-- Witness for C5 at `shape = [2,3]` with default value `0`. -/
theorem zeros_returns_default_filled_tensor_witness :
    zeros (0 : Nat) [2, 3] = some ⟨List.replicate 6 0, [2, 3], [3, 1]⟩ ∧
    Tensor.new (List.replicate 6 (0 : Nat)) [2, 3] =
      some (.ok ⟨List.replicate 6 0, [2, 3], [3, 1]⟩) ∧
    (List.replicate 6 (0 : Nat)).length = ([2, 3] : List Nat).prod ∧
    ∀ x ∈ List.replicate 6 (0 : Nat), x = 0 :=
  zeros_returns_default_filled_tensor 0 [2, 3] 6 [3, 1] rfl rfl

/-- C6: the code bug.  For `shape = [2^32, 2^32]` the true element count
`2^64` exceeds `usize::MAX`.  With overflow checks (the behaviour the
crate's doc comment documents) `zeros` panics, but in the default release
profile, where `usize` arithmetic wraps, the count silently wraps to 0 and
`zeros` returns a tensor with the huge shape and empty data — exactly the
silent wrap the claim rules out. -/
theorem zeros_release_silently_wraps :
    usizeBound ≤ ([2 ^ 32, 2 ^ 32] : List Nat).prod ∧
    zeros (0 : Nat) [2 ^ 32, 2 ^ 32] = none ∧
    zeros_release (0 : Nat) [2 ^ 32, 2 ^ 32] =
      some ⟨[], [2 ^ 32, 2 ^ 32], [2 ^ 32, 1]⟩ := by
  refine ⟨?_, rfl, rfl⟩
  simp [usizeBound, List.prod_cons]

lemma new_eq_ok {T : Type} {data : List T} {shape : List Nat} {num : Nat}
    {s : List Nat} (hnum : uprodChecked shape = some num)
    (hlen : data.length = num) (hs : calculate_strides shape = some s) :
    Tensor.new data shape = some (.ok ⟨data, shape, s⟩) := by
  unfold Tensor.new
  rw [hnum]
  dsimp only
  rw [if_neg (by simp [hlen]), hs]

lemma uprodChecked_pair {a b : Nat} (ha : a < usizeBound)
    (hab : a * b < usizeBound) : uprodChecked [a, b] = some (a * b) := by
  simp [uprodChecked, prodAcc, cmul, Nat.one_mul, ha, hab]

lemma calculate_strides_pair {a b : Nat} (hb : b < usizeBound) :
    calculate_strides [a, b] = some [b, 1] := by
  simp [calculate_strides, cmul, Nat.one_mul, hb]

/-- C7: every ragged rank-2 literal (some row's length differs from the
first row's) and every ragged rank-3 literal (some block's row count
differs from the first block's, or some row's length differs from the
first block's first row's) makes the literal builder panic at construction
time: no tensor is produced, so nothing is ever padded or truncated. -/
theorem ragged_literal_rejected :
    (∀ (T : Type) (r0 : List T) (rest : List (List T)),
        (∃ r ∈ r0 :: rest, r.length ≠ r0.length) →
        tensor2D (r0 :: rest) = none) ∧
    (∀ (T : Type) (r0 : List T) (rrest : List (List T))
        (rest : List (List (List T))),
        ((∃ m ∈ (r0 :: rrest) :: rest, m.length ≠ (r0 :: rrest).length) ∨
          (∃ m ∈ (r0 :: rrest) :: rest, ∃ r ∈ m, r.length ≠ r0.length)) →
        tensor3D ((r0 :: rrest) :: rest) = none) := by
  constructor
  · rintro T r0 rest ⟨r, hr, hne⟩
    have hall : ¬((r0 :: rest).all (fun x => x.length == r0.length) = true) := by
      rw [List.all_eq_true]
      intro hall
      exact hne (by simpa using hall r hr)
    unfold tensor2D
    dsimp only
    rw [if_neg hall]
  · rintro T r0 rrest rest hbad
    have hall : ¬(((r0 :: rrest) :: rest).all
        (fun m => m.length == (r0 :: rrest).length &&
          m.all (fun x => x.length == r0.length)) = true) := by
      rw [List.all_eq_true]
      intro hall
      rcases hbad with ⟨m, hm, hne⟩ | ⟨m, hm, r, hr, hne⟩
      · have := hall m hm
        simp at this
        exact hne this.1
      · have := hall m hm
        simp [List.all_eq_true] at this
        exact hne (this.2 r hr)
    unfold tensor3D
    dsimp only
    rw [if_neg hall]

/-- Witness for C7: a ragged 2D literal and a ragged 3D literal are both
rejected. -/
theorem ragged_literal_rejected_witness :
    tensor2D [[1, 2], [3]] = none ∧
    tensor3D [[[1, 2], [3, 4]], [[5, 6]]] = none :=
  ⟨ragged_literal_rejected.1 Nat [1, 2] [[3]] ⟨[3], by simp, by simp⟩,
    ragged_literal_rejected.2 Nat [1, 2] [[3, 4]] [[[5, 6]]]
      (Or.inl ⟨[[5, 6]], by simp, by simp⟩)⟩

/-- C8: a uniform rank-2 literal with rows of equal length builds the
tensor whose shape is `[rows, cols]` and whose data is the concatenation of
the rows top to bottom, and it is exactly the tensor `Tensor::new` returns
on that flat data and shape (same data, shape, and strides). -/
theorem literal2d_roundtrip {T : Type} (r0 : List T) (rest : List (List T))
    (huni : ∀ r ∈ r0 :: rest, r.length = r0.length)
    (hov : (r0 :: rest).length * r0.length < usizeBound)
    (h0 : r0 ≠ []) :
    tensor2D (r0 :: rest) =
      some ⟨(r0 :: rest).flatten, [(r0 :: rest).length, r0.length],
        [r0.length, 1]⟩ ∧
    Tensor.new (r0 :: rest).flatten [(r0 :: rest).length, r0.length] =
      some (.ok ⟨(r0 :: rest).flatten, [(r0 :: rest).length, r0.length],
        [r0.length, 1]⟩) := by
  have hd1pos : 0 < (r0 :: rest).length := by simp
  have hd2pos : 0 < r0.length := List.length_pos.mpr h0
  have hd1lt : (r0 :: rest).length < usizeBound :=
    Nat.lt_of_le_of_lt (Nat.le_mul_of_pos_right _ hd2pos) hov
  have hd2lt : r0.length < usizeBound :=
    Nat.lt_of_le_of_lt (Nat.le_mul_of_pos_left _ hd1pos) hov
  have hnum : uprodChecked [(r0 :: rest).length, r0.length] =
      some ((r0 :: rest).length * r0.length) := uprodChecked_pair hd1lt hov
  have hflat : (r0 :: rest).flatten.length =
      (r0 :: rest).length * r0.length := flatten_length_uniform huni
  have hs : calculate_strides [(r0 :: rest).length, r0.length] =
      some [r0.length, 1] := calculate_strides_pair hd2lt
  have hnew := new_eq_ok hnum hflat hs
  refine ⟨?_, hnew⟩
  have hall : (r0 :: rest).all (fun x => x.length == r0.length) = true := by
    rw [List.all_eq_true]
    intro r hr
    simpa using huni r hr
  unfold tensor2D
  dsimp only
  rw [if_pos hall, hnew]

/-- Witness for C8: the literal `[[1,2],[3,4]]` yields shape `[2,2]`, data
`[1,2,3,4]`, equal to `Tensor::new([1,2,3,4],[2,2])`. -/
theorem literal2d_roundtrip_witness :
    tensor2D [[1, 2], [3, 4]] = some ⟨[1, 2, 3, 4], [2, 2], [2, 1]⟩ ∧
    Tensor.new (T := Nat) [1, 2, 3, 4] [2, 2] =
      some (.ok ⟨[1, 2, 3, 4], [2, 2], [2, 1]⟩) :=
  literal2d_roundtrip [1, 2] [[3, 4]] (by decide) (by decide) (by decide)

/-- C9 counterexample: displaying the shape-`[2,2]` tensor with data
`[1,2,3,4]` produces the multi-line rendering shown; the single-line text
`[1, 2]` the claim says is rendered never occurs anywhere in the output
(and neither, by symmetry, does `[3, 4]`). -/
theorem display_2x2_not_single_line_rows :
    displayTensor toString (⟨[1, 2, 3, 4], [2, 2], [2, 1]⟩ : Tensor Nat) =
      some "[\n  [\n    1,\n    2\n  ],\n  [\n    3,\n    4\n  ]\n]" ∧
    occursIn "[1, 2]".toList
      "[\n  [\n    1,\n    2\n  ],\n  [\n    3,\n    4\n  ]\n]".toList = false :=
  ⟨rfl, rfl⟩

/-- C9 (amended): the Display rendering of the shape-`[2,2]` tensor with
data `[1,2,3,4]` is multi-line: exactly two inner bracketed rows holding
1, 2 and 3, 4, each element on its own indented line, the rows joined by a
comma-newline after the first row only, nested inside one outer bracket
level, with no trailing comma after the last element at either level. -/
theorem display_2x2_renders_multiline :
    displayTensor toString (⟨[1, 2, 3, 4], [2, 2], [2, 1]⟩ : Tensor Nat) =
      some ("[\n" ++ ("  " ++ "[\n    1,\n    2\n  ]" ++ ",\n") ++
        ("  " ++ "[\n    3,\n    4\n  ]" ++ "\n") ++ "]") :=
  rfl

lemma fr_total {T : Type} (rep : T → String) :
    ∀ (shape : List Nat) (data : List T) (level : Nat),
      shape.prod ≤ data.length →
      (format_recursive rep data shape (stridesMath shape) level).isSome := by
  intro shape
  induction shape with
  | nil =>
    intro data level h
    cases data with
    | nil => simp at h
    | cons x xs => simp [format_recursive]
  | cons d rest ih =>
    intro data level h
    rw [List.prod_cons] at h
    simp only [format_recursive, stridesMath]
    rw [Option.isSome_map']
    apply sequenceO_isSome
    intro o ho
    rw [List.mem_map] at ho
    obtain ⟨i, hi, rfl⟩ := ho
    rw [List.mem_range] at hi
    simp only [List.head?_cons, Option.some_bind]
    rw [Option.isSome_map']
    cases rest with
    | nil =>
      simp only [List.isEmpty_nil, if_true]
      rw [Option.isSome_map']
      have hlt : i * ([] : List Nat).prod < data.length := by
        have h' : d ≤ data.length := by simpa using h
        calc i * ([] : List Nat).prod = i := by simp
          _ < d := hi
          _ ≤ data.length := h'
      rw [List.get?_eq_get hlt]
      rfl
    | cons r rs =>
      simp only [List.isEmpty_cons, if_false]
      have hsub : (r :: rs).prod ≤ (data.drop (i * (r :: rs).prod)).length := by
        rw [List.length_drop]
        have hstep : i * (r :: rs).prod + (r :: rs).prod ≤ d * (r :: rs).prod := by
          have : (i + 1) * (r :: rs).prod ≤ d * (r :: rs).prod :=
            Nat.mul_le_mul_right _ hi
          calc i * (r :: rs).prod + (r :: rs).prod
              = (i + 1) * (r :: rs).prod := by ring
            _ ≤ d * (r :: rs).prod := this
        have := Nat.le_trans hstep h
        omega
      exact ih (data.drop (i * (r :: rs).prod)) (level + 1) hsub

/-- C10: for every tensor satisfying the construction invariants
(`data.len() = product(shape)` and `strides` the row-major derivation of
the shape), Display is total: an empty shape or a zero-size dimension takes
the early empty-bracket branch, and otherwise every offset the recursive
formatter computes stays inside the data buffer, so a rendering is always
produced — no out-of-bounds read and no panic. -/
theorem display_total_in_bounds {T : Type} (rep : T → String) (t : Tensor T)
    (hlen : t.data.length = t.shape.prod)
    (hstr : t.strides = stridesMath t.shape) :
    (displayTensor rep t).isSome ∧
    ((t.shape = [] ∨ t.shape.contains 0 = true) →
      displayTensor rep t = some "[]\n") := by
  constructor
  · unfold displayTensor
    split
    · simp
    · split
      · simp
      · rw [hstr]
        exact fr_total rep t.shape t.data 0 (Nat.le_of_eq hlen.symm)
  · intro hc
    unfold displayTensor
    rcases hc with hempty | hzero
    · rw [if_pos hempty]
    · by_cases hsh : t.shape = []
      · rw [if_pos hsh]
      · rw [if_neg hsh, if_pos hzero]

/-- Witness for C10 at the invariant-satisfying tensor with data
`[1,2,3,4]`, shape `[2,2]`, strides `[2,1]`. -/
theorem display_total_in_bounds_witness :
    (displayTensor toString (⟨[1, 2, 3, 4], [2, 2], [2, 1]⟩ : Tensor Nat)).isSome ∧
    (((⟨[1, 2, 3, 4], [2, 2], [2, 1]⟩ : Tensor Nat).shape = [] ∨
        (⟨[1, 2, 3, 4], [2, 2], [2, 1]⟩ : Tensor Nat).shape.contains 0 = true) →
      displayTensor toString (⟨[1, 2, 3, 4], [2, 2], [2, 1]⟩ : Tensor Nat) =
        some "[]\n") :=
  display_total_in_bounds toString ⟨[1, 2, 3, 4], [2, 2], [2, 1]⟩ rfl rfl

end TinyTensor
